import Mathlib

set_option linter.unusedVariables false

set_option maxRecDepth 8192

/-
  Verification of the chordial-mvp conversation memory and scheduling
  subsystem against its natural-language specification.

  The Python source is shallowly embedded: each relevant method becomes a
  pure Lean function over explicit state (lists standing for database
  tables, integer timestamps standing for datetimes).  Timestamps are Int
  values; the unit (seconds or minutes) is stated at each definition.
-/

namespace Chordial

/-! ## Temporal Context Provider (src/core/temporal_context.py) -/

/-- Embedding of TemporalContext.get_time_of_day.  The Python method reads
only timestamp.hour, so the embedding takes the local hour directly. -/
def get_time_of_day (hour : Nat) : String :=
  if 5 ≤ hour ∧ hour < 12 then "morning"
  else if 12 ≤ hour ∧ hour < 17 then "afternoon"
  else if 17 ≤ hour ∧ hour < 21 then "evening"
  else "night"

/-! ## Scheduler Service (src/services/scheduler_service.py)

Constants from SchedulerService.__init__ together with the config defaults:
default_interval_minutes = Config.DM_INTERVAL_MINUTES (default 60),
delay_after_ignored_hours = 24, quiet_hours_start = 21, quiet_hours_end = 8.
-/

def default_interval_minutes : Nat := 60

def delay_after_ignored_hours : Nat := 24

def quiet_hours_start : Nat := 21

def quiet_hours_end : Nat := 8

/-- Embedding of SchedulerService._is_quiet_hours, as a function of the
current local hour (the Python method reads datetime.now().hour). -/
def is_quiet_hours (current_hour : Nat) : Bool :=
  current_hour ≥ quiet_hours_start || current_hour < quiet_hours_end

/-- The current wall clock as the scheduler observes it: an absolute
timeline position in minutes plus the local hour derived from it. -/
structure SchedNow where
  epochMinutes : Int
  hour : Nat

/-- One row of conversation_history as the scheduler would observe it:
role, creation time (minutes on the same timeline as
SchedNow.epochMinutes), and the message type tag the reader would extract
(default "conversation") were the attributes it touches present. -/
structure SchedMsg where
  role : String
  createdAtMinutes : Int
  messageType : String

/-- The column attributes that src/database/models.py declares on the
users table (class User). -/
def users_columns : List String :=
  ["uuid", "preferred_name", "created_at", "updated_at", "timezone",
   "schedule_preferences", "bot_personality", "is_active"]

/-- The column attributes that src/database/models.py declares on the
conversation_history table (class ConversationHistory). -/
def conversation_history_columns : List String :=
  ["id", "user_uuid", "platform", "role", "content", "message_type",
   "created_at"]

/-- Python attribute lookup against a declarative models class or one of
its rows: the named column when it is declared, an AttributeError
otherwise. -/
def model_getattr (columns : List String) (name : String) :
    Except String String :=
  if name ∈ columns then Except.ok name
  else Except.error ("AttributeError: " ++ name)

/-- Embedding of SchedulerService._check_last_message.  Building the query
filter reads ConversationHistory.user_id, and inspecting a returned row
reads last_message.context: neither attribute exists in
src/database/models.py (the columns are user_uuid and message_type), so
the method raises AttributeError instead of returning a triple; the
success continuation records what the code would return were the
attributes present.  The log argument is the conversation in
chronological order (the query orders by created_at descending and takes
the first row, its last element). -/
def check_last_message (log : List SchedMsg) :
    Except String (Option (String × Int × String)) :=
  match model_getattr conversation_history_columns "user_id" with
  | Except.error e => Except.error e
  | Except.ok _ =>
    match log.getLast? with
    | none => Except.ok none
    | some m =>
      match model_getattr conversation_history_columns "context" with
      | Except.error e => Except.error e
      | Except.ok _ =>
        Except.ok (some (m.role, m.createdAtMinutes, m.messageType))

/-- Embedding of UserManager.needs_onboarding from src/core/user_manager.py,
the class SchedulerService is wired with.  Its query filter reads
User.id, which src/database/models.py does not declare (the primary key
is uuid), so the call raises AttributeError; the unreachable success path
answers whether the user row is missing or has no preferred name.  user
is the queried row when one exists, carrying its preferred_name. -/
def needs_onboarding (user : Option (Option String)) : Except String Bool :=
  match model_getattr users_columns "id" with
  | Except.error e => Except.error e
  | Except.ok _ =>
    match user with
    | some preferred_name => Except.ok (preferred_name = none)
    | none => Except.ok true

/-- Embedding of SchedulerService.should_send_scheduled_message.  The
method first awaits needs_onboarding, whose query raises AttributeError,
so every call raises; the decision logic below the failing reads is kept
exactly as the source writes it. -/
def should_send_scheduled_message (user : Option (Option String))
    (log : List SchedMsg) (now : SchedNow) : Except String Bool :=
  match needs_onboarding user with
  | Except.error e => Except.error e
  | Except.ok needs =>
    if needs then
      Except.ok false
    else
      match check_last_message log with
      | Except.error e => Except.error e
      | Except.ok none => Except.ok true
      | Except.ok (some (last_role, last_message_time, last_message_type)) =>
        let time_since_last : Int := now.epochMinutes - last_message_time
        if last_role = "assistant" ∧ last_message_type = "scheduled" then
          if time_since_last < (delay_after_ignored_hours : Int) * 60 then
            Except.ok false
          else
            Except.ok true
        else
          if is_quiet_hours now.hour then
            Except.ok false
          else
            if time_since_last ≥ (default_interval_minutes : Int) then
              Except.ok true
            else
              Except.ok false

end Chordial

namespace Chordial

/-! ## Theorems for claims C9, C5, C6, C10 -/

/-- Claim C9: for every local hour of the day, get_time_of_day returns
exactly one of morning, afternoon, evening, night, with morning on [5,12),
afternoon on [12,17), evening on [17,21) and night on the remaining hours;
the four half-open intervals partition the 24-hour day. -/
theorem time_of_day_partition (hour : Nat) (hh : hour < 24) :
    (get_time_of_day hour = "morning" ∨ get_time_of_day hour = "afternoon" ∨
     get_time_of_day hour = "evening" ∨ get_time_of_day hour = "night") ∧
    (get_time_of_day hour = "morning" ↔ 5 ≤ hour ∧ hour < 12) ∧
    (get_time_of_day hour = "afternoon" ↔ 12 ≤ hour ∧ hour < 17) ∧
    (get_time_of_day hour = "evening" ↔ 17 ≤ hour ∧ hour < 21) ∧
    (get_time_of_day hour = "night" ↔ hour < 5 ∨ 21 ≤ hour) := by
  revert hh
  revert hour
  decide

/-- Witness for C9 at the concrete hour 13: the claim applies and yields
the afternoon label. -/
theorem time_of_day_partition_witness :
    (13 : Nat) < 24 ∧ get_time_of_day 13 = "afternoon" :=
  ⟨by decide, ((time_of_day_partition 13 (by decide)).2.2.1).2 (by decide)⟩

/-- Every call of should_send_scheduled_message raises: its first step,
the needs_onboarding query, reads the nonexistent User.id attribute. -/
theorem should_send_always_raises (user : Option (Option String))
    (log : List SchedMsg) (now : SchedNow) :
    should_send_scheduled_message user log now =
      Except.error "AttributeError: id" := by
  rfl

/-- Claim C5 evaluated on the code at the failing inputs: for an
onboarded user whose most recent message has role assistant and type
scheduled, should_send_scheduled_message does not return false at age 23
hours nor true at age 25 hours; it raises AttributeError on every call
(UserManager.needs_onboarding queries the nonexistent User.id, and
_check_last_message filters on the nonexistent ConversationHistory.user_id
and reads the nonexistent row attribute context), and the scheduled tag
that add_message persists into the message_type column is never read, so
the claimed backoff decision is never reached. -/
theorem scheduled_backoff_unreachable :
    should_send_scheduled_message (some (some "dain"))
      [⟨"assistant", 0, "scheduled"⟩] ⟨23 * 60, 23⟩ =
        Except.error "AttributeError: id" ∧
    should_send_scheduled_message (some (some "dain"))
      [⟨"assistant", 0, "scheduled"⟩] ⟨25 * 60, 1⟩ =
        Except.error "AttributeError: id" :=
  ⟨should_send_always_raises (some (some "dain"))
      [⟨"assistant", 0, "scheduled"⟩] ⟨23 * 60, 23⟩,
   should_send_always_raises (some (some "dain"))
      [⟨"assistant", 0, "scheduled"⟩] ⟨25 * 60, 1⟩⟩

/-- Claim C6 evaluated on the code at the failing inputs: for an
onboarded user whose most recent message was a user message,
should_send_scheduled_message returns neither false during quiet hours
(local hour 22, 10 hours elapsed) nor true outside them (local hour 12, 2
hours elapsed): it raises AttributeError on every call, for the same
missing-attribute reasons as in the backoff branch, so the quiet-hours
and interval decision is never reached. -/
theorem quiet_hours_policy_unreachable :
    should_send_scheduled_message (some (some "dain"))
      [⟨"user", 0, "conversation"⟩] ⟨10 * 60, 22⟩ =
        Except.error "AttributeError: id" ∧
    should_send_scheduled_message (some (some "dain"))
      [⟨"user", 0, "conversation"⟩] ⟨2 * 60, 12⟩ =
        Except.error "AttributeError: id" :=
  ⟨should_send_always_raises (some (some "dain"))
      [⟨"user", 0, "conversation"⟩] ⟨10 * 60, 22⟩,
   should_send_always_raises (some (some "dain"))
      [⟨"user", 0, "conversation"⟩] ⟨2 * 60, 12⟩⟩

/-- Claim C10 evaluated on the code at the failing input: for an
onboarded user whose most recent message is an assistant/scheduled
message aged 25 hours, with the local hour 22 inside quiet hours,
should_send_scheduled_message does not return true: it raises
AttributeError on every call; and even with the attribute names repaired,
the scheduled tag lives in the message_type column while the scheduler
reads a context attribute, so the message would be classified as a normal
reply and the quiet-hours branch would answer false. -/
theorem backoff_quiet_hours_unreachable :
    should_send_scheduled_message (some (some "dain"))
      [⟨"assistant", 0, "scheduled"⟩] ⟨25 * 60, 22⟩ =
        Except.error "AttributeError: id" :=
  should_send_always_raises (some (some "dain"))
    [⟨"assistant", 0, "scheduled"⟩] ⟨25 * 60, 22⟩

/-! ## Memory Store (src/core/memories_manager.py)

One row of the memories table.  Weights are floats in the source; they are
only ever compared, so they are modelled as rationals.  Timestamps are
epoch seconds (Int); ttl is in seconds, none meaning permanent. -/

structure Memory where
  id : Nat
  user_uuid : String
  ai_instruction : String
  memory_type : String
  source : String
  weighting : Rat
  core : Bool
  is_active : Bool
  ttl : Option Int
  access_count : Nat
  last_accessed_at : Option Int
  created_at : Int
deriving DecidableEq, Repr

/-- MemoriesManager.core_memory_weight. -/
def core_memory_weight : Rat := 999

/-- Python list slicing l[:n] for a possibly negative n: a negative bound
counts from the end of the list, flooring at an empty result. -/
def pyListTake {α : Type} (l : List α) (n : Int) : List α :=
  if 0 ≤ n then l.take n.toNat else l.take ((l.length : Int) + n).toNat

/-- Python list slicing l[n:] for a possibly negative n. -/
def pyListFrom {α : Type} (l : List α) (n : Int) : List α :=
  if 0 ≤ n then l.drop n.toNat else l.drop ((l.length : Int) + n).toNat

/-- The sort key used by get_memories_for_prompt on regular memories:
(weighting, last_accessed_at or created_at). -/
def mem_sort_key (m : Memory) : Rat × Int :=
  (m.weighting, m.last_accessed_at.getD m.created_at)

/-- Lexicographic key comparison, first component then second: decides
whether x sorts at or after y in ascending order. -/
def key_ge (x y : Rat × Int) : Bool :=
  y.1 < x.1 || (y.1 = x.1 && y.2 ≤ x.2)

/-- Stable insertion step for the descending sort below. -/
def insert_desc (a : Memory) : List Memory → List Memory
  | [] => [a]
  | b :: bs => if key_ge (mem_sort_key a) (mem_sort_key b) then a :: b :: bs
               else b :: insert_desc a bs

/-- Embedding of regular_memories.sort(key, reverse=True): a stable sort
descending on mem_sort_key, as Python list.sort performs. -/
def sort_memories_desc : List Memory → List Memory
  | [] => []
  | a :: as => insert_desc a (sort_memories_desc as)

/-- The TTL check shared by get_active_memories and get_memories_for_prompt:
age_seconds = now - created_at has reached the ttl. -/
def ttl_expired (now : Int) (m : Memory) : Bool :=
  match m.ttl with
  | none => false
  | some t => now - m.created_at ≥ t

/-- The database query filter shared by the memory reads: rows of this user
with is_active true, optionally restricted to one memory type. -/
def memory_query (user_uuid : String) (memory_type : Option String)
    (m : Memory) : Bool :=
  m.user_uuid = user_uuid && m.is_active &&
    (match memory_type with
     | some t => m.memory_type = t
     | none => true)

/-- Embedding of MemoriesManager.get_active_memories.  Returns the result
list and the table after the read (the lazy-expiry side effect flips
is_active on every queried row whose ttl has elapsed). -/
def get_active_memories (table : List Memory) (user_uuid : String)
    (memory_type : Option String) (include_expired : Bool) (now : Int) :
    List Memory × List Memory :=
  let queryRes := table.filter (memory_query user_uuid memory_type)
  if include_expired then
    (queryRes, table)
  else
    let result := queryRes.filter (fun m => !ttl_expired now m)
    let table2 := table.map (fun m =>
      if memory_query user_uuid memory_type m && ttl_expired now m then
        { m with is_active := false }
      else m)
    (result, table2)

/-- One entry of the list get_memories_for_prompt builds for the prompt. -/
structure FormattedMemory where
  type : String
  instruction : String
  core : Bool
  source : String
deriving DecidableEq, Repr

/-- Embedding of MemoriesManager.get_memories_for_prompt (the returned
formatted list).  The expiry pass mutates the loaded rows in place, so the
core/regular partitions below observe the flipped flags; remaining_slots is
a Python int that can go negative, and the slice
regular_memories[:remaining_slots] follows Python semantics (pyListTake).
include_core is accepted and ignored exactly as in the source. -/
def get_memories_for_prompt (table : List Memory) (user_uuid : String)
    (max_count : Nat) (include_core : Bool) (now : Int) :
    List FormattedMemory :=
  let all_memories := table.filter (fun m => m.user_uuid = user_uuid && m.is_active)
  let all_memories := all_memories.map (fun m =>
    if ttl_expired now m then { m with is_active := false } else m)
  let core_memories := all_memories.filter (fun m => m.core && m.is_active)
  let regular_memories := all_memories.filter (fun m => !m.core && m.is_active)
  let memories_to_include := core_memories
  let sorted_regular := sort_memories_desc regular_memories
  let remaining_slots : Int := (max_count : Int) - (memories_to_include.length : Int)
  let memories_to_include := memories_to_include ++ pyListTake sorted_regular remaining_slots
  memories_to_include.map (fun m =>
    ⟨m.memory_type, m.ai_instruction, m.core, m.source⟩)

/-- Iterates get_active_memories with include_expired = false: each call
threads the table state (with its lazy-expiry flips) into the next call and
collects every result list.  Call parameters are (user_uuid, memory_type,
now). -/
def run_get_active_calls (table : List Memory) :
    List (String × Option String × Int) → List (List Memory) × List Memory
  | [] => ([], table)
  | c :: rest =>
    let step := get_active_memories table c.1 c.2.1 false c.2.2
    let restRun := run_get_active_calls step.2 rest
    (step.1 :: restRun.1, restRun.2)

theorem is_active_of_memory_query {u : String} {τ : Option String}
    {x : Memory} (h : memory_query u τ x = true) : x.is_active = true := by
  unfold memory_query at h
  simp only [Bool.and_eq_true] at h
  exact h.1.2

theorem mem_table_of_mem_get_active_result {T : List Memory} {u : String}
    {τ : Option String} {ie : Bool} {now : Int} {x : Memory}
    (hx : x ∈ (get_active_memories T u τ ie now).1) :
    x ∈ T ∧ x.is_active = true := by
  unfold get_active_memories at hx
  by_cases hie : ie = true
  · simp only [hie, if_true] at hx
    have hx' := List.mem_filter.mp hx
    exact ⟨hx'.1, is_active_of_memory_query hx'.2⟩
  · simp only [hie, if_false, Bool.false_eq_true] at hx
    have hx' := List.mem_filter.mp hx
    have hx'' := List.mem_filter.mp hx'.1
    exact ⟨hx''.1, is_active_of_memory_query hx''.2⟩

theorem get_active_preserves_id {T : List Memory} {u : String}
    {τ : Option String} {ie : Bool} {now : Int} {x : Memory}
    (hx : x ∈ (get_active_memories T u τ ie now).2) :
    ∃ y ∈ T, y.id = x.id ∧
      (x = y ∨ (x = { y with is_active := false })) := by
  unfold get_active_memories at hx
  by_cases hie : ie = true
  · simp only [hie, if_true] at hx
    exact ⟨x, hx, rfl, Or.inl rfl⟩
  · simp only [hie, if_false, Bool.false_eq_true] at hx
    obtain ⟨y, hy, hxy⟩ := List.mem_map.mp hx
    by_cases hcond : (memory_query u τ y && ttl_expired now y) = true
    · rw [if_pos hcond] at hxy
      exact ⟨y, hy, by rw [← hxy], Or.inr hxy.symm⟩
    · rw [if_neg hcond] at hxy
      exact ⟨y, hy, by rw [← hxy], Or.inl hxy.symm⟩

/-- Once every row of the table with a given id is inactive, a
get_active_memories read never returns that id and leaves the property
intact. -/
theorem inactive_id_invariant {T : List Memory} {i : Nat}
    (hT : ∀ x ∈ T, x.id = i → x.is_active = false)
    (u : String) (τ : Option String) (ie : Bool) (now : Int) :
    (∀ x ∈ (get_active_memories T u τ ie now).1, x.id ≠ i) ∧
    (∀ x ∈ (get_active_memories T u τ ie now).2, x.id = i → x.is_active = false) := by
  constructor
  · intro x hx hxi
    obtain ⟨hxT, hxact⟩ := mem_table_of_mem_get_active_result hx
    have := hT x hxT hxi
    rw [hxact] at this
    exact Bool.true_eq_false.mp this
  · intro x hx hxi
    obtain ⟨y, hyT, hyid, hcase⟩ := get_active_preserves_id hx
    rcases hcase with h | h
    · rw [h]
      exact hT y hyT (by rw [hyid, hxi])
    · rw [h]

/-- The invariant of inactive_id_invariant propagates through any sequence
of get_active_memories calls: the id never shows up in any result. -/
theorem run_calls_never_returns {i : Nat}
    (calls : List (String × Option String × Int)) :
    ∀ T : List Memory, (∀ x ∈ T, x.id = i → x.is_active = false) →
      ∀ r ∈ (run_get_active_calls T calls).1, ∀ x ∈ r, x.id ≠ i := by
  induction calls with
  | nil =>
    intro T _ r hr
    simp [run_get_active_calls] at hr
  | cons c rest ih =>
    intro T hT r hr x hx
    simp only [run_get_active_calls, List.mem_cons] at hr
    rcases hr with hr | hr
    · subst hr
      exact (inactive_id_invariant hT c.1 c.2.1 false c.2.2).1 x hx
    · exact ih _ ((inactive_id_invariant hT c.1 c.2.1 false c.2.2).2) r hr x hx

/-- Claim C7: for a memory with a non-null ttl, once now - created_at has
reached the ttl, a get_active_memories read with include_expired = false
omits the memory from its result and flips its active flag in the table as
a side effect, and across any number of subsequent get_active_memories
calls with include_expired = false the memory never appears in a result
again. -/
theorem ttl_expiry_permanent (table : List Memory) (m : Memory) (t : Int)
    (now1 : Int) (calls : List (String × Option String × Int))
    (hm : m ∈ table) (httl : m.ttl = some t)
    (hexp : now1 - m.created_at ≥ t) (hactive : m.is_active = true)
    (huniq : ∀ x ∈ table, x.id = m.id → x = m) :
    (∀ x ∈ (get_active_memories table m.user_uuid none false now1).1, x.id ≠ m.id) ∧
    ({ m with is_active := false } ∈ (get_active_memories table m.user_uuid none false now1).2) ∧
    (∀ x ∈ (get_active_memories table m.user_uuid none false now1).2,
        x.id = m.id → x.is_active = false) ∧
    (∀ r ∈ (run_get_active_calls
        (get_active_memories table m.user_uuid none false now1).2 calls).1,
        ∀ x ∈ r, x.id ≠ m.id) := by
  have hquery : memory_query m.user_uuid none m = true := by
    unfold memory_query
    simp [hactive]
  have hexpired : ttl_expired now1 m = true := by
    unfold ttl_expired
    rw [httl]
    simpa using hexp
  have hcond : (memory_query m.user_uuid none m && ttl_expired now1 m) = true := by
    rw [hquery, hexpired]
    rfl
  have hpost : ∀ x ∈ (get_active_memories table m.user_uuid none false now1).2,
      x.id = m.id → x.is_active = false := by
    intro x hx hxi
    unfold get_active_memories at hx
    simp only [if_neg (by simp : ¬ (false = true))] at hx
    obtain ⟨y, hyT, hyx⟩ := List.mem_map.mp hx
    have hyidx : y.id = x.id := by
      by_cases hc : (memory_query m.user_uuid none y && ttl_expired now1 y) = true
      · rw [if_pos hc] at hyx
        rw [← hyx]
      · rw [if_neg hc] at hyx
        rw [← hyx]
    have hym : y = m := huniq y hyT (by rw [hyidx, hxi])
    subst hym
    rw [if_pos hcond] at hyx
    rw [← hyx]
  refine ⟨?_, ?_, hpost, ?_⟩
  · intro x hx hxi
    obtain ⟨hxT, hxact⟩ := mem_table_of_mem_get_active_result hx
    have hxm : x = m := huniq x hxT hxi
    unfold get_active_memories at hx
    simp only [if_neg (by simp : ¬ (false = true))] at hx
    have hx' := List.mem_filter.mp hx
    have : (!ttl_expired now1 x) = true := hx'.2
    rw [hxm, hexpired] at this
    exact Bool.true_eq_false.mp this.symm
  · unfold get_active_memories
    simp only [if_neg (by simp : ¬ (false = true))]
    refine List.mem_map.mpr ⟨m, hm, ?_⟩
    rw [if_pos hcond]
  · exact run_calls_never_returns calls _ hpost

/-- Witness for C7: a single memory of user u with ttl 10 seconds created
at time 0; the read at time 10 omits it, flips it inactive, and two further
reads (at times 20 and 5) never return it. -/
theorem ttl_expiry_permanent_witness :
    (∀ x ∈ (get_active_memories
        [⟨1, "u", "ephemeral note", "EPISODIC", "AI_INFERRED", 1, false, true,
          some 10, 0, none, 0⟩] "u" none false 10).1, x.id ≠ 1) ∧
    ({ id := 1, user_uuid := "u", ai_instruction := "ephemeral note",
       memory_type := "EPISODIC", source := "AI_INFERRED", weighting := 1,
       core := false, is_active := false, ttl := some 10, access_count := 0,
       last_accessed_at := none, created_at := 0 : Memory } ∈
      (get_active_memories
        [⟨1, "u", "ephemeral note", "EPISODIC", "AI_INFERRED", 1, false, true,
          some 10, 0, none, 0⟩] "u" none false 10).2) ∧
    (∀ x ∈ (get_active_memories
        [⟨1, "u", "ephemeral note", "EPISODIC", "AI_INFERRED", 1, false, true,
          some 10, 0, none, 0⟩] "u" none false 10).2,
        x.id = 1 → x.is_active = false) ∧
    (∀ r ∈ (run_get_active_calls
        (get_active_memories
          [⟨1, "u", "ephemeral note", "EPISODIC", "AI_INFERRED", 1, false, true,
            some 10, 0, none, 0⟩] "u" none false 10).2
        [("u", none, 20), ("u", none, 5)]).1,
        ∀ x ∈ r, x.id ≠ 1) :=
  ttl_expiry_permanent
    [⟨1, "u", "ephemeral note", "EPISODIC", "AI_INFERRED", 1, false, true,
      some 10, 0, none, 0⟩]
    ⟨1, "u", "ephemeral note", "EPISODIC", "AI_INFERRED", 1, false, true,
      some 10, 0, none, 0⟩
    10 10 [("u", none, 20), ("u", none, 5)]
    (by simp) rfl (by decide) rfl (by decide)

/-- The failing input for claim C1: user u with three active core memories
and two active regular memories, none with a ttl. -/
def c1_table : List Memory :=
  [⟨1, "u", "core one", "FACT", "USER_EXPLICIT", core_memory_weight, true, true,
     none, 0, none, 0⟩,
   ⟨2, "u", "core two", "FACT", "USER_EXPLICIT", core_memory_weight, true, true,
     none, 0, none, 0⟩,
   ⟨3, "u", "core three", "FACT", "USER_EXPLICIT", core_memory_weight, true, true,
     none, 0, none, 0⟩,
   ⟨4, "u", "regular high", "FACT", "AI_INFERRED", 2, false, true,
     none, 0, none, 0⟩,
   ⟨5, "u", "regular low", "FACT", "AI_INFERRED", 1, false, true,
     none, 0, none, 0⟩]

/-- Claim C1 evaluated at the failing input: with 3 core memories and
max_count = 2, remaining_slots = 2 - 3 = -1, and the Python slice
regular_memories[:-1] keeps all but the last sorted regular memory instead
of none; the call returns the three cores plus one regular memory, where
the claim (and the spec, which floors the remaining slots at 0) requires
the three cores only. -/
theorem get_memories_for_prompt_negative_slice :
    (get_memories_for_prompt c1_table "u" 2 true 0).map
        (fun f => (f.instruction, f.core)) =
      [("core one", true), ("core two", true), ("core three", true),
       ("regular high", false)] := by
  decide

/-! ## Compressor Service (src/services/compressor_service.py) -/

/-- CompressorService.min_length_to_compress. -/
def min_length_to_compress : Nat := 100

/-- Embedding of CompressorService.compress_message.  The external model
call (OpenAIProvider.generate_response on the role-specific compression
prompt) is opaque; its outcome for this content and role is the gen
argument: ok with the generated text, or error when the call raises.  The
try/except around the call maps any error to the truncation fallback. -/
def compress_message (gen : Except Unit String) (content : String)
    (role : String) : String :=
  if content.length < min_length_to_compress then
    content
  else
    match gen with
    | Except.ok compressed => compressed.trim
    | Except.error _ =>
      if content.length > 200 then content.take 200 ++ "..." else content

/-- One row of the compressed_messages table.  The compression_ratio
column (a float derived from the two stored lengths) is omitted from the
model; no claim depends on it. -/
structure CompressedMessageRec where
  conversation_history_id : Nat
  user_uuid : String
  platform : String
  role : String
  original_length : Nat
  compressed_content : String
  compressed_length : Nat
  model_used : String
deriving DecidableEq, Repr

/-- Embedding of CompressorService.store_compressed_message: inserts one
row into compressed_messages. -/
def store_compressed_message (store : List CompressedMessageRec)
    (conversation_history_id : Nat) (user_uuid platform role : String)
    (original_content compressed_content : String) :
    List CompressedMessageRec :=
  store ++ [⟨conversation_history_id, user_uuid, platform, role,
    original_content.length, compressed_content, compressed_content.length,
    "gpt-3.5-turbo"⟩]

/-- An in-memory Message of conversation_manager with the db_id that
add_message records on it when the raw row is inserted. -/
structure ConvMessage where
  db_id : Nat
  role : String
  content : String
  created_at : Int
  message_type : String
deriving DecidableEq, Repr

/-- Embedding of Conversation.compress_last_message: compresses the last
in-memory message and stores the result as a compressed_messages row.  gen
is the outcome of the compression model call as a function of the message
content and role. -/
def compress_last_message (user_uuid platform : String)
    (messages : List ConvMessage)
    (gen : String → String → Except Unit String)
    (store : List CompressedMessageRec) : List CompressedMessageRec :=
  match messages.getLast? with
  | none => store
  | some last =>
    let compressed_content :=
      compress_message (gen last.content last.role) last.content last.role
    store_compressed_message store last.db_id user_uuid platform last.role
      last.content compressed_content

/-- Counterexample to claim C2 as stated: for the 5-character message
"hi :3", compress_last_message still inserts a compressed_messages row (its
compressed_content is simply the raw content); the claim says the
compressed record is skipped entirely and none is created. -/
theorem short_message_still_stores_record :
    compress_last_message "u" "discord"
      [⟨1, "user", "hi :3", 0, "conversation"⟩]
      (fun _ _ => Except.error ()) [] =
      [⟨1, "u", "discord", "user", 5, "hi :3", 5, "gpt-3.5-turbo"⟩] := by
  decide

/-- Claim C2 as amended: for a raw message shorter than the minimum
compression length (100 characters), the compression call is skipped and
the content is returned verbatim, but a CompressedMessage record IS still
created for it, with compressed_content equal to the raw content — so the
raw content is what every compressed-history read returns for it. -/
theorem short_message_record_is_verbatim (user_uuid platform : String)
    (messages : List ConvMessage) (last : ConvMessage)
    (gen : String → String → Except Unit String)
    (store : List CompressedMessageRec)
    (hlast : messages.getLast? = some last)
    (hshort : last.content.length < 100) :
    compress_last_message user_uuid platform messages gen store =
      store ++ [⟨last.db_id, user_uuid, platform, last.role,
        last.content.length, last.content, last.content.length,
        "gpt-3.5-turbo"⟩] := by
  unfold compress_last_message
  rw [hlast]
  dsimp only [compress_message, min_length_to_compress]
  rw [if_pos hshort]
  rfl

/-- Witness for C2 (amended): the concrete 5-character message. -/
theorem short_message_record_is_verbatim_witness :
    compress_last_message "u" "discord"
      [⟨7, "assistant", "hey!", 3, "conversation"⟩]
      (fun c _ => Except.ok (c ++ c)) [] =
      [⟨7, "u", "discord", "assistant", 4, "hey!", 4, "gpt-3.5-turbo"⟩] :=
  short_message_record_is_verbatim "u" "discord"
    [⟨7, "assistant", "hey!", 3, "conversation"⟩]
    ⟨7, "assistant", "hey!", 3, "conversation"⟩
    (fun c _ => Except.ok (c ++ c)) [] rfl (by decide)

/-- A 150-character message used to refute claim C8 as stated. -/
def c8_content : String := String.mk (List.replicate 150 'a')

/-- Counterexample to claim C8 as stated: for a 150-character message the
erroring compression call makes compress_message return the content
unchanged, not the first 200 characters followed by an ellipsis. -/
theorem compression_error_no_ellipsis_under_200 :
    compress_message (Except.error ()) c8_content "user" = c8_content ∧
    c8_content ≠ c8_content.take 200 ++ "..." := by
  constructor
  · decide
  · decide

/-- Claim C8 as amended: when the compression call raises, compress_message
never propagates the error (it is total on the fallback path) and returns
the first 200 characters of the content followed by an ellipsis only when
the content is longer than 200 characters; otherwise it returns the
content unchanged (contents under 100 characters never reach the call). -/
theorem compression_error_fallback (content role : String) :
    compress_message (Except.error ()) content role =
      if content.length > 200 then content.take 200 ++ "..." else content := by
  unfold compress_message min_length_to_compress
  by_cases hshort : content.length < 100
  · rw [if_pos hshort, if_neg (by omega)]
  · rw [if_neg hshort]

/-! ## Hybrid history read (src/core/conversation_manager.py,
Conversation.get_hybrid_conversation_history) -/

/-- One conversation_history row as the hybrid read queries it.  The table
list is kept in created_at-ascending insertion order, as the append-only
add_message writes it. -/
structure HistoryRow where
  id : Nat
  user_uuid : String
  platform : String
  role : String
  content : String
  message_type : String
  created_at : Int
deriving DecidableEq, Repr

/-- The row-fetch of get_hybrid_conversation_history: filter the table to
this (user, platform), order by created_at descending, take limit rows,
then reverse back to chronological order.  On an ascending table this is
the last limit matching rows. -/
def recent_hybrid_messages (rows : List HistoryRow)
    (user_uuid platform : String) (limit : Nat) : List HistoryRow :=
  let matched := rows.filter (fun r =>
    r.user_uuid = user_uuid && r.platform = platform)
  (matched.reverse.take limit).reverse

/-- One entry of the returned history.  The trailing temporal context note
carries only role and content, so the two tag fields are optional. -/
structure HistEntry where
  role : String
  content : String
  message_type : Option String
  timestamp : Option Int
deriving DecidableEq, Repr

/-- The compressed_map lookup: the source builds a dict keyed by
conversation_history_id from the rows matching the older ids, so a key
collision keeps the last row; looking up one id is therefore the last
compressed_messages row carrying it. -/
def compressed_map_lookup (compressed : List CompressedMessageRec)
    (i : Nat) : Option CompressedMessageRec :=
  (compressed.filter (fun cm => cm.conversation_history_id = i)).getLast?

/-- A verbatim (message_type "raw") history entry for a row. -/
def raw_entry (msg : HistoryRow) : HistEntry :=
  ⟨msg.role, msg.content, some "raw", some msg.created_at⟩

/-- An older-portion history entry: the compressed version when one
exists (tagged "summary"), else the verbatim fallback. -/
def older_entry (compressed : List CompressedMessageRec)
    (msg : HistoryRow) : HistEntry :=
  match compressed_map_lookup compressed msg.id with
  | some cm => ⟨msg.role, cm.compressed_content, some "summary", some msg.created_at⟩
  | none => raw_entry msg

/-- Embedding of Conversation.get_hybrid_conversation_history.  The older
and newest portions follow Python slicing: recent[:-n] and recent[-n:]
with n = full_message_count (pyListTake and pyListFrom of -n).
context_note stands for the system-role temporal context text the source
formats from TemporalContext.get_context_string(datetime.now()). -/
def get_hybrid_conversation_history (rows : List HistoryRow)
    (compressed : List CompressedMessageRec) (user_uuid platform : String)
    (limit full_message_count : Nat) (include_temporal : Bool)
    (context_note : String) : List HistEntry :=
  let recent := recent_hybrid_messages rows user_uuid platform limit
  if recent = [] then
    []
  else
    let history :=
      if recent.length ≤ full_message_count then
        recent.map raw_entry
      else
        let older := pyListTake recent (-(full_message_count : Int))
        let newest := pyListFrom recent (-(full_message_count : Int))
        older.map (older_entry compressed) ++ newest.map raw_entry
    if include_temporal ∧ history ≠ [] then
      history ++ [⟨"system", context_note, none, none⟩]
    else
      history

/-- The failing input for claim C4: two stored messages of one user, each
with a compressed version. -/
def c4_rows : List HistoryRow :=
  [⟨1, "u", "discord", "user", "raw one", "conversation", 0⟩,
   ⟨2, "u", "discord", "assistant", "raw two", "conversation", 1⟩]

def c4_compressed : List CompressedMessageRec :=
  [⟨1, "u", "discord", "user", 7, "comp one", 8, "gpt-3.5-turbo"⟩,
   ⟨2, "u", "discord", "assistant", 7, "comp two", 8, "gpt-3.5-turbo"⟩]

/-- Counterexample to claim C4 as stated: with full_message_count = 0 and
two matched messages that both have compressed versions, the claim demands
zero verbatim entries and both entries replaced by their compressed
content; the code instead returns both entries verbatim and tagged raw,
because recent[:-0] is recent[:0] (empty) and recent[-0:] is the whole
list in Python. -/
theorem hybrid_history_fmc_zero_all_raw :
    (get_hybrid_conversation_history c4_rows c4_compressed "u" "discord"
        2 0 false "ctx").map (fun e => (e.content, e.message_type)) =
      [("raw one", some "raw"), ("raw two", some "raw")] := by
  decide

/-- Claim C4 as amended: for every full_message_count of at least 1 (and
include_temporal false, dropping the unrelated trailing context note), the
hybrid read returns exactly the most recent limit matching rows in
chronological order, where the newest full_message_count entries are the
verbatim raw contents tagged raw and every older entry in the window is
its compressed content (tagged summary) when a CompressedMessage exists,
else the verbatim fallback; when full_message_count reaches the window
size all entries are verbatim.  At full_message_count = 0 the code
instead returns the whole window verbatim (second conjunct), because
recent[:-0] is recent[:0] and recent[-0:] is the whole list. -/
theorem hybrid_history_split (rows : List HistoryRow)
    (compressed : List CompressedMessageRec) (user_uuid platform : String)
    (limit full_message_count : Nat) (context_note : String) :
    (1 ≤ full_message_count →
      get_hybrid_conversation_history rows compressed user_uuid platform
          limit full_message_count false context_note =
        (let recent := recent_hybrid_messages rows user_uuid platform limit
         ((recent.take (recent.length - full_message_count)).map
            (older_entry compressed)) ++
          ((recent.drop (recent.length - full_message_count)).map raw_entry))) ∧
    (full_message_count = 0 →
      get_hybrid_conversation_history rows compressed user_uuid platform
          limit full_message_count false context_note =
        (recent_hybrid_messages rows user_uuid platform limit).map
          raw_entry) := by
  constructor
  · intro hfmc
    unfold get_hybrid_conversation_history
    by_cases hempty : recent_hybrid_messages rows user_uuid platform limit = []
    · simp [hempty]
    · rw [if_neg hempty]
      set recent := recent_hybrid_messages rows user_uuid platform limit with hrec
      by_cases hle : recent.length ≤ full_message_count
      · rw [if_pos hle]
        simp [Nat.sub_eq_zero_of_le hle]
      · rw [if_neg hle]
        have hneg : ¬ (0 : Int) ≤ -(full_message_count : Int) := by
          omega
        have htake : pyListTake recent (-(full_message_count : Int)) =
            recent.take (recent.length - full_message_count) := by
          unfold pyListTake
          rw [if_neg hneg]
          congr 1
          omega
        have hdrop : pyListFrom recent (-(full_message_count : Int)) =
            recent.drop (recent.length - full_message_count) := by
          unfold pyListFrom
          rw [if_neg hneg]
          congr 1
          omega
        rw [htake, hdrop]
        simp
  · intro hfmc
    subst hfmc
    unfold get_hybrid_conversation_history
    by_cases hempty : recent_hybrid_messages rows user_uuid platform limit = []
    · simp [hempty]
    · rw [if_neg hempty]
      set recent := recent_hybrid_messages rows user_uuid platform limit with hrec
      by_cases hle : recent.length ≤ 0
      · exact absurd (List.eq_nil_of_length_eq_zero (by omega)) hempty
      · rw [if_neg hle]
        have htake : pyListTake recent (-((0 : Nat) : Int)) = [] := by
          unfold pyListTake
          norm_num
        have hdrop : pyListFrom recent (-((0 : Nat) : Int)) = recent := by
          unfold pyListFrom
          norm_num
        rw [htake, hdrop]
        simp

/-- Witness for C4 (amended): three stored messages, a compressed version
for the first two only, limit 3.  With full_message_count 1 the oldest
entry is compressed, the middle falls back to verbatim where no
compressed row exists, the newest is verbatim; with full_message_count 0
every entry comes back verbatim. -/
theorem hybrid_history_split_witness :
    (get_hybrid_conversation_history
      [⟨1, "u", "discord", "user", "one", "conversation", 0⟩,
       ⟨2, "u", "discord", "assistant", "two", "conversation", 1⟩,
       ⟨3, "u", "discord", "user", "three", "conversation", 2⟩]
      [⟨1, "u", "discord", "user", 3, "c-one", 5, "gpt-3.5-turbo"⟩]
      "u" "discord" 3 1 false "ctx" =
      [⟨"user", "c-one", some "summary", some 0⟩,
       ⟨"assistant", "two", some "raw", some 1⟩,
       ⟨"user", "three", some "raw", some 2⟩]) ∧
    (get_hybrid_conversation_history
      [⟨1, "u", "discord", "user", "one", "conversation", 0⟩,
       ⟨2, "u", "discord", "assistant", "two", "conversation", 1⟩,
       ⟨3, "u", "discord", "user", "three", "conversation", 2⟩]
      [⟨1, "u", "discord", "user", 3, "c-one", 5, "gpt-3.5-turbo"⟩]
      "u" "discord" 3 0 false "ctx" =
      [⟨"user", "one", some "raw", some 0⟩,
       ⟨"assistant", "two", some "raw", some 1⟩,
       ⟨"user", "three", some "raw", some 2⟩]) := by
  constructor
  · rw [(hybrid_history_split
      [⟨1, "u", "discord", "user", "one", "conversation", 0⟩,
       ⟨2, "u", "discord", "assistant", "two", "conversation", 1⟩,
       ⟨3, "u", "discord", "user", "three", "conversation", 2⟩]
      [⟨1, "u", "discord", "user", 3, "c-one", 5, "gpt-3.5-turbo"⟩]
      "u" "discord" 3 1 "ctx").1 (by decide)]
    decide
  · rw [(hybrid_history_split
      [⟨1, "u", "discord", "user", "one", "conversation", 0⟩,
       ⟨2, "u", "discord", "assistant", "two", "conversation", 1⟩,
       ⟨3, "u", "discord", "user", "three", "conversation", 2⟩]
      [⟨1, "u", "discord", "user", 3, "c-one", 5, "gpt-3.5-turbo"⟩]
      "u" "discord" 3 0 "ctx").2 rfl]
    decide

/-! ## Summarizer Service (src/services/summarizer_service.py)

The summary pipeline only inspects message ids, order and count when
carving chunks, so a message is modelled by its id and content.  The
per-conversation message list is kept in created_at-ascending insertion
order (the order get_unsummarized_messages queries), and the SQL
autoincrement ids it relies on are reflected by the ascending-id
hypotheses of the theorems below. -/

structure SummMsg where
  id : Nat
  content : String
deriving DecidableEq, Repr

/-- Modelled from the spec: one ConversationSummary row — the
[first_message_id, last_message_id] range, its message_count and the
summary text.  The ConversationSummary class itself is missing from
src/database/models.py even though src/services/summarizer_service.py
imports it from there (so that module cannot be imported at all);
key_topics and model_used carry no information the claims touch and are
omitted. -/
structure SummaryRec where
  first_message_id : Nat
  last_message_id : Nat
  message_count : Nat
  summary : String
deriving DecidableEq, Repr

/-- SummarizerService.min_messages_to_summarize. -/
def min_messages_to_summarize : Nat := 20

/-- SummarizerService.max_messages_per_summary. -/
def max_messages_per_summary : Nat := 50

/-- Embedding of SummarizerService.get_last_summary_position: the query
orders the summaries by last_message_id descending and takes the first
row, i.e. the running maximum of last_message_id, none when no summary
exists. -/
def get_last_summary_position (summaries : List SummaryRec) : Option Nat :=
  summaries.foldl (fun acc s =>
    match acc with
    | none => some s.last_message_id
    | some p => some (max p s.last_message_id)) none

/-- Embedding of SummarizerService.get_unsummarized_messages.  The Python
guard `if last_summarized_id:` is a truthiness test, so a stored position
of 0 behaves like a missing one. -/
def get_unsummarized_messages (msgs : List SummMsg)
    (summaries : List SummaryRec) : List SummMsg :=
  match get_last_summary_position summaries with
  | none => msgs
  | some p => if p = 0 then msgs else msgs.filter (fun m => p < m.id)

/-- Embedding of SummarizerService.should_summarize. -/
def should_summarize (msgs : List SummMsg)
    (summaries : List SummaryRec) : Bool :=
  min_messages_to_summarize ≤ (get_unsummarized_messages msgs summaries).length

/-- The keyword arguments summarize_conversation_chunk passes to the
provider call: generate_response(conversation_history=..., system_prompt=...). -/
def summarizer_call_kwargs : List String :=
  ["conversation_history", "system_prompt"]

/-- Python call binding for the provider the summarizer instantiates,
src/providers/ai generate_response(self, messages, **kwargs): the
required parameter messages must be supplied positionally or by keyword,
and every other keyword is absorbed by **kwargs.  A call that supplies no
messages argument raises TypeError. -/
def bind_generate_response (keyword_args : List String) :
    Except String Unit :=
  if "messages" ∈ keyword_args then Except.ok ()
  else Except.error "TypeError: missing messages"

/-- Embedding of SummarizerService.summarize_conversation_chunk: returns
the ConversationSummary row the call stores (none when nothing is
stored) together with the summary text the method returns (none when it
returns None).  The body calls generate_response with only the keywords
conversation_history and system_prompt, which cannot bind to
generate_response(self, messages, **kwargs): the TypeError is caught by
the except handler and mapped to None before any row is written.  The
success continuation — gen giving the text the provider would produce,
the row carrying the chunk boundaries and count — records what the code
would do were the call bindable. -/
def summarize_conversation_chunk (gen : List SummMsg → Option String)
    (chunk : List SummMsg) : Option SummaryRec × Option String :=
  if h : chunk = [] then
    (none, none)
  else
    match bind_generate_response summarizer_call_kwargs with
    | Except.error _ => (none, none)
    | Except.ok _ =>
      match gen chunk with
      | some s =>
        (some ⟨(chunk.head h).id, (chunk.getLast h).id, chunk.length, s⟩,
         some s)
      | none => (none, none)

/-- Embedding of the while loop of SummarizerService.process_user_summaries
with explicit fuel.  Each iteration re-queries the unsummarized backlog
and summarizes its first max_messages_per_summary messages; any row the
chunk call stored is kept, but the loop counts the summary and continues
only when the returned summary text is truthy — a None or empty text
breaks the loop.  Returns the summaries table and summaries_created. -/
def process_user_summaries_aux (gen : List SummMsg → Option String) :
    Nat → List SummMsg → List SummaryRec → List SummaryRec × Nat
  | 0, _, summaries => (summaries, 0)
  | fuel + 1, msgs, summaries =>
    if should_summarize msgs summaries then
      match summarize_conversation_chunk gen
          ((get_unsummarized_messages msgs summaries).take
            max_messages_per_summary) with
      | (stored, text) =>
        let summaries2 := summaries ++ stored.toList
        if (match text with
            | some t => t != ""
            | none => false) then
          let rest := process_user_summaries_aux gen fuel msgs summaries2
          (rest.1, rest.2 + 1)
        else
          (summaries2, 0)
    else
      (summaries, 0)

/-- Embedding of SummarizerService.process_user_summaries.  The source
loop has no fuel; a budget of messages-plus-one is more than enough,
since an iteration that stores a summary advances the summarized
position and a failing one breaks the loop. -/
def process_user_summaries (gen : List SummMsg → Option String)
    (msgs : List SummMsg) (summaries : List SummaryRec) :
    List SummaryRec × Nat :=
  process_user_summaries_aux gen (msgs.length + 1) msgs summaries

theorem process_aux_step (gen : List SummMsg → Option String) (fuel : Nat)
    (msgs : List SummMsg) (summaries : List SummaryRec) :
    process_user_summaries_aux gen (fuel + 1) msgs summaries =
      (if should_summarize msgs summaries then
        match summarize_conversation_chunk gen
            ((get_unsummarized_messages msgs summaries).take
              max_messages_per_summary) with
        | (stored, text) =>
          let summaries2 := summaries ++ stored.toList
          if (match text with
              | some t => t != ""
              | none => false) then
            let rest := process_user_summaries_aux gen fuel msgs summaries2
            (rest.1, rest.2 + 1)
          else
            (summaries2, 0)
      else
        (summaries, 0)) := rfl

theorem summarize_chunk_always_none (gen : List SummMsg → Option String)
    (chunk : List SummMsg) :
    summarize_conversation_chunk gen chunk = (none, none) := by
  unfold summarize_conversation_chunk
  by_cases h : chunk = []
  · rw [dif_pos h]
  · rw [dif_neg h]
    rfl

/-- Claim C3 evaluated on the code: process_user_summaries never creates
a summary for any conversation — with any backlog, the 45 and 120
unsummarized-message scenarios included, it returns the summaries table
unchanged and a summaries_created count of zero.  Every chunk call
raises TypeError (the keyword-only generate_response call cannot bind to
generate_response(self, messages, **kwargs)), the handler maps it to
None, and the loop treats the falsy summary as a failure and stops; the
module cannot even be imported, since it imports the ConversationSummary
model that src/database/models.py does not define.  The claimed chunking
— one summary covering 45 messages, repeated non-overlapping chunks for
120 until the backlog drops below 20 — therefore never occurs. -/
theorem process_user_summaries_never_summarizes
    (gen : List SummMsg → Option String) (msgs : List SummMsg)
    (summaries : List SummaryRec) :
    process_user_summaries gen msgs summaries = (summaries, 0) := by
  unfold process_user_summaries
  rw [process_aux_step]
  by_cases h : should_summarize msgs summaries = true
  · rw [if_pos h, summarize_chunk_always_none]
    simp
  · rw [if_neg h]

end Chordial
